import Mathlib

/-!
Verification of the frame-sampling video-detection pipeline (yolo.py).

The embedding models the bespoke logic of `ObjectDetection`:
frame-rate clamping and stride computation (`__call__`, lines 95-109),
normalized-to-pixel coordinate conversion (lines 76 and 118),
pixel-region extraction and the `logic` callback (lines 116-120),
box/label rendering (`plot_boxes`, lines 62-83), and the main loop's
per-frame event trace.  Python floats are modelled as rationals,
`int()` as truncation toward zero, and side effects (window display,
drawing, callback invocation) as an explicit event list.
-/

namespace EyeOfRetail

/-- Python `int()` applied to a rational: truncation toward zero. -/
def pyInt (q : ℚ) : ℤ := if 0 ≤ q then ⌊q⌋ else ⌈q⌉

/-- Normalized-to-pixel conversion as the code computes it:
`int(row[k] * shape)` (yolo.py lines 76 and 118). -/
def pixelCoord (coord : ℚ) (shape : ℕ) : ℤ := pyInt (coord * shape)

/-- Modelled from the spec: the conversion formula as the spec states it,
`x1_px = round(x1_norm * width)` (spec section 8). -/
def pixelCoordSpec (coord : ℚ) (shape : ℕ) : ℤ := round (coord * (shape : ℚ))

/-- Lines 95-97 of yolo.py: the only configuration-time processing of the
target frame rate.  `fps = settings.CAM_FMS; if fps > frame_rate: fps = frame_rate`.
No value is rejected. -/
def configFps (camFms frameRate : ℚ) : ℚ :=
  if camFms > frameRate then frameRate else camFms

/-- Line 107 of yolo.py: `math.floor(frame_rate / fps)`.  `none` models the
`ZeroDivisionError` Python raises when `fps = 0`; the division happens
inside the loop body, once a frame has already been read. -/
def strideOfFps (frameRate fps : ℚ) : Option ℤ :=
  if fps = 0 then none else some ⌊frameRate / fps⌋

/-- The sampler decision for read-frame number `cf` (1-based): line 107,
`current_frame % stride == 0` scores the frame.  `none` models a
`ZeroDivisionError` (zero fps, or a zero stride used as modulus). -/
def isScored (frameRate fps : ℚ) (cf : ℕ) : Option Bool :=
  match strideOfFps frameRate fps with
  | none => none
  | some stride =>
      if stride = 0 then none else some (decide ((cf : ℤ) % stride = 0))

/-- One row of `results.xyxyn[0][:, :-1]`: normalized box corners plus the
confidence column kept by the slice (yolo.py line 59). -/
structure Row where
  x1 : ℚ
  y1 : ℚ
  x2 : ℚ
  y2 : ℚ
  conf : ℚ
  deriving DecidableEq

/-- A frame buffer: an identity for the underlying pixel storage, its
current dimensions (`frame.shape[1]`, `frame.shape[0]`), and the overlay
operations drawn onto it in place so far. -/
structure Frame where
  bufId : ℕ
  width : ℕ
  height : ℕ
  ops : List String
  deriving DecidableEq

/-- A pixel region handed to the external `logic` callback:
`[frame, x1, y1, x2-x1, y2-y1]` (yolo.py line 119); the frame reference is
modelled by the buffer identity. -/
structure PixelRegion where
  buf : ℕ
  x : ℤ
  y : ℤ
  w : ℤ
  h : ℤ
  deriving DecidableEq

/-- Observable effects of one loop iteration. -/
inductive Event where
  /-- Models `cv2.rectangle(frame, (x1,y1), (x2,y2), bgr, 1)` (line 78). -/
  | drawRect (buf : ℕ) (x1 y1 x2 y2 : ℤ) (bgr : ℤ × ℤ × ℤ) (thickness : ℤ)
  /-- Models `cv2.putText(frame, msg, (30,30), ..., bgr, 2)` (line 80). -/
  | drawText (buf : ℕ) (msg : String) (px py : ℤ) (bgr : ℤ × ℤ × ℤ) (thickness : ℤ)
  /-- Models `cv2.imshow(window, frame)` (lines 81 and 108). -/
  | imshow (window : String) (buf : ℕ)
  /-- Models `logic(faces, self.width, self.height)` (line 120). -/
  | callbackCall (regions : List PixelRegion) (srcW srcH : ℚ)
  deriving DecidableEq

/-- The name of the display window used at lines 81 and 108. -/
def videoWindow : String := "video"

/-- The draw events issued by the body of the `for i in range(n)` loop in
`plot_boxes` (lines 74-80): per detection, one rectangle and one count
label — the `putText` call sits inside the loop. -/
def boxEvents (rows : List Row) (f : Frame) : List Event :=
  let n := rows.length
  (rows.map fun row =>
    [Event.drawRect f.bufId (pixelCoord row.x1 f.width) (pixelCoord row.y1 f.height)
        (pixelCoord row.x2 f.width) (pixelCoord row.y2 f.height) (0, 0, 255) 1,
     Event.drawText f.bufId ("Total Targets: " ++ toString n) 30 30 (0, 255, 0) 2]).flatten

/-- A readable record of a draw event, appended to the frame's overlay
list to model the in-place mutation performed by `cv2.rectangle` and
`cv2.putText`. -/
def opLabel : Event → String
  | Event.drawRect _ _ _ _ _ _ _ => "rect"
  | Event.drawText _ msg _ _ _ _ => msg
  | Event.imshow w _ => w
  | Event.callbackCall _ _ _ => "callback"

/-- The renderer `plot_boxes(results, frame)` (lines 62-83): draws the boxes and labels
onto the frame in place, shows the frame in the `video` window once
(line 81, outside the `for` loop), and returns the same frame object. -/
def plot_boxes (rows : List Row) (f : Frame) : Frame × List Event :=
  ({ f with ops := f.ops ++ (boxEvents rows f).map opLabel },
   boxEvents rows f ++ [Event.imshow videoWindow f.bufId])

/-- The pixel region built for one detection row (lines 117-119), using
the current frame's dimensions. -/
def pixelRegion (f : Frame) (row : Row) : PixelRegion :=
  { buf := f.bufId
    x := pixelCoord row.x1 f.width
    y := pixelCoord row.y1 f.height
    w := pixelCoord row.x2 f.width - pixelCoord row.x1 f.width
    h := pixelCoord row.y2 f.height - pixelCoord row.y1 f.height }

/-- The mutable state of the main loop: the `current_frame` counter
(line 99, line 106). -/
structure LoopState where
  currentFrame : ℕ
  deriving DecidableEq

/-- One iteration of the `while True` loop (lines 101-122) for one
successfully read frame, with the frame's detection rows given as an
oracle for `score_frame`.  `srcW`/`srcH` are the dimensions recorded by
`get_video_from_file` (lines 39-40), passed to the callback at line 120.
`none` models a `ZeroDivisionError` at line 107. -/
def loopStep (frameRate fps srcW srcH : ℚ) (st : LoopState) (f : Frame)
    (rows : List Row) : Option (LoopState × Frame × List Event) :=
  match strideOfFps frameRate fps with
  | none => none
  | some stride =>
      if stride = 0 then none
      else if ((st.currentFrame + 1 : ℕ) : ℤ) % stride ≠ 0 then
        some (⟨st.currentFrame + 1⟩, f, [Event.imshow videoWindow f.bufId])
      else
        some (⟨st.currentFrame + 1⟩, (plot_boxes rows f).1,
          Event.callbackCall (rows.map (pixelRegion f)) srcW srcH ::
            (plot_boxes rows f).2)

/-- The loop run over a finite list of read frames, threading the counter
and concatenating the event traces. -/
def runLoop (frameRate fps srcW srcH : ℚ) (st : LoopState) :
    List (Frame × List Row) → Option (LoopState × List Event)
  | [] => some (st, [])
  | (f, rows) :: rest =>
      match loopStep frameRate fps srcW srcH st f rows with
      | none => none
      | some (st', _, evs) =>
          match runLoop frameRate fps srcW srcH st' rest with
          | none => none
          | some (stFin, evsRest) => some (stFin, evs ++ evsRest)

/-- Python error kinds relevant to opening the video source. -/
inductive PyError where
  | assertionError
  | ioError
  deriving DecidableEq

/-- The state of a `cv2.VideoCapture` handle: whether the file opened,
and the properties it reports. -/
structure VideoSource where
  opened : Bool
  width : ℚ
  height : ℚ
  fps : ℚ
  deriving DecidableEq

/-- The function `get_video_from_file` (lines 32-42): constructs the capture handle and
records its reported width and height.  `cv2.VideoCapture(...)` never
returns `None` — for an unopenable file it returns an unopened handle —
so the `assert cap is not None` at line 41 always passes and this
function never fails. -/
def get_video_from_file (src : VideoSource) : Except PyError (VideoSource × ℚ × ℚ) :=
  Except.ok (src, src.width, src.height)

/-- Lines 89-93 of `__call__`: obtain the player from
`get_video_from_file`, run `assert player.isOpened()` (line 90), then
query the frame rate and dimensions.  A file that failed to open reaches
the line-90 assert and raises `AssertionError`. -/
def openPlayer (src : VideoSource) : Except PyError (ℚ × ℚ × ℚ) :=
  match get_video_from_file src with
  | Except.error e => Except.error e
  | Except.ok (cap, _, _) =>
      if cap.opened then Except.ok (cap.width, cap.height, cap.fps)
      else Except.error PyError.assertionError

/-- Recognizes a callback event. -/
def isCallback : Event → Bool
  | Event.callbackCall _ _ _ => true
  | _ => false

/-- Recognizes a rectangle-draw event. -/
def isRect : Event → Bool
  | Event.drawRect _ _ _ _ _ _ _ => true
  | _ => false

/-- Recognizes a text-draw event. -/
def isText : Event → Bool
  | Event.drawText _ _ _ _ _ _ => true
  | _ => false

/-- Recognizes a display into the `video` window. -/
def isShow : Event → Bool
  | Event.imshow w _ => w == videoWindow
  | _ => false

/-! ### Helper lemmas -/

theorem boxEvents_countP_callback (rows : List Row) (f : Frame) :
    (boxEvents rows f).countP isCallback = 0 := by
  unfold boxEvents
  rw [List.countP_flatten]
  simp [Function.comp_def, List.countP_cons, isCallback]

theorem boxEvents_countP_show (rows : List Row) (f : Frame) :
    (boxEvents rows f).countP isShow = 0 := by
  unfold boxEvents
  rw [List.countP_flatten]
  simp [Function.comp_def, List.countP_cons, isShow]

theorem boxEvents_countP_rect (rows : List Row) (f : Frame) :
    (boxEvents rows f).countP isRect = rows.length := by
  unfold boxEvents
  rw [List.countP_flatten]
  simp [Function.comp_def, List.countP_cons, isRect]

theorem boxEvents_countP_text (rows : List Row) (f : Frame) :
    (boxEvents rows f).countP isText = rows.length := by
  unfold boxEvents
  rw [List.countP_flatten]
  simp [Function.comp_def, List.countP_cons, isText]

/-- On an unscored frame the loop body only displays the frame. -/
theorem loopStep_unscored (frameRate fps srcW srcH : ℚ) (st : LoopState)
    (f : Frame) (rows : List Row) (stride : ℤ)
    (hs : strideOfFps frameRate fps = some stride) (hnz : stride ≠ 0)
    (hm : ((st.currentFrame + 1 : ℕ) : ℤ) % stride ≠ 0) :
    loopStep frameRate fps srcW srcH st f rows =
      some (⟨st.currentFrame + 1⟩, f, [Event.imshow videoWindow f.bufId]) := by
  unfold loopStep
  rw [hs]
  simp only [if_neg hnz, if_pos hm]

/-- On a scored frame the loop body extracts regions, fires the callback
and renders. -/
theorem loopStep_scored (frameRate fps srcW srcH : ℚ) (st : LoopState)
    (f : Frame) (rows : List Row) (stride : ℤ)
    (hs : strideOfFps frameRate fps = some stride) (hnz : stride ≠ 0)
    (hm : ((st.currentFrame + 1 : ℕ) : ℤ) % stride = 0) :
    loopStep frameRate fps srcW srcH st f rows =
      some (⟨st.currentFrame + 1⟩, (plot_boxes rows f).1,
        Event.callbackCall (rows.map (pixelRegion f)) srcW srcH ::
          (plot_boxes rows f).2) := by
  unfold loopStep
  rw [hs]
  simp only [if_neg hnz, hm, ite_not, if_pos]

/-- Whenever the loop body completes, the counter advanced by exactly one. -/
theorem loopStep_state (frameRate fps srcW srcH : ℚ) (st : LoopState)
    (f : Frame) (rows : List Row) (out : LoopState × Frame × List Event)
    (h : loopStep frameRate fps srcW srcH st f rows = some out) :
    out.1 = ⟨st.currentFrame + 1⟩ := by
  unfold loopStep at h
  split at h
  · exact absurd h (by simp)
  · split at h
    · exact absurd h (by simp)
    · split at h
      · cases h
        rfl
      · cases h
        rfl

/-- Over a whole run, the counter ends at its start plus the number of
frames read: it increments once per frame and never resets. -/
theorem runLoop_counter (frameRate fps srcW srcH : ℚ) :
    ∀ (frames : List (Frame × List Row)) (st : LoopState)
      (out : LoopState × List Event),
      runLoop frameRate fps srcW srcH st frames = some out →
      out.1.currentFrame = st.currentFrame + frames.length := by
  intro frames
  induction frames with
  | nil =>
      intro st out h
      simp only [runLoop] at h
      cases h
      simp
  | cons fr rest ih =>
      intro st out h
      simp only [runLoop] at h
      cases hstep : loopStep frameRate fps srcW srcH st fr.1 fr.2 with
      | none =>
          rw [hstep] at h
          simp at h
      | some trip =>
          obtain ⟨st', f', evs⟩ := trip
          rw [hstep] at h
          dsimp only at h
          cases hrest : runLoop frameRate fps srcW srcH st' rest with
          | none =>
              rw [hrest] at h
              simp at h
          | some pair =>
              obtain ⟨stFin, evsRest⟩ := pair
              rw [hrest] at h
              cases h
              have h1 := loopStep_state frameRate fps srcW srcH st fr.1 fr.2 _ hstep
              have h2 := ih st' (stFin, evsRest) hrest
              simp only at h1 h2 ⊢
              rw [h1] at h2
              simp only [h2, List.length_cons]
              omega

/-- The stride used for a 30 fps source sampled at 10 fps. -/
theorem strideOfFps_30_10 : strideOfFps 30 10 = some 3 := by
  unfold strideOfFps
  norm_num

/-- The sampler decision for a 30 fps source and a 10 fps target. -/
theorem isScored_30_10 (cf : ℕ) :
    isScored 30 10 cf = some (decide (cf % 3 = 0)) := by
  unfold isScored
  rw [strideOfFps_30_10]
  dsimp only
  rw [if_neg (by norm_num : ¬ (3 : ℤ) = 0)]
  congr 1
  exact decide_eq_decide.mpr (by omega)

/-- A `some true` sampling decision yields a nonzero stride dividing the
frame counter. -/
theorem isScored_true_elim (frameRate fps : ℚ) (cf : ℕ)
    (hm : isScored frameRate fps cf = some true) :
    ∃ stride : ℤ, strideOfFps frameRate fps = some stride ∧ stride ≠ 0 ∧
      (cf : ℤ) % stride = 0 := by
  unfold isScored at hm
  cases hstride : strideOfFps frameRate fps with
  | none =>
      rw [hstride] at hm
      simp at hm
  | some stride =>
      rw [hstride] at hm
      dsimp only at hm
      by_cases hz : stride = 0
      · rw [if_pos hz] at hm
        simp at hm
      · rw [if_neg hz] at hm
        exact ⟨stride, rfl, hz, of_decide_eq_true (Option.some.inj hm)⟩

/-- A `some false` sampling decision means the stride does not divide the
frame counter. -/
theorem isScored_false_elim (frameRate fps : ℚ) (cf : ℕ) (stride : ℤ)
    (hs : strideOfFps frameRate fps = some stride) (hz : stride ≠ 0)
    (hm : isScored frameRate fps cf = some false) :
    (cf : ℤ) % stride ≠ 0 := by
  unfold isScored at hm
  rw [hs] at hm
  dsimp only at hm
  rw [if_neg hz] at hm
  intro hmod
  have h := Option.some.inj hm
  rw [hmod] at h
  simp at h

/-- The events of `plot_boxes`: the per-detection draws followed by one
display of the frame. -/
theorem plot_boxes_snd (rows : List Row) (f : Frame) :
    (plot_boxes rows f).2 = boxEvents rows f ++ [Event.imshow videoWindow f.bufId] :=
  rfl

/-! ### Claims -/

/-- C1: The spec requires a zero target or source frame rate to be
rejected before streaming starts.  The code performs no such check: the
clamp at lines 95-97 accepts the value and the division by `fps` only
happens at line 107, inside the loop, after the first frame has been
read — where it raises `ZeroDivisionError` (modelled by `none`).  The
code contradicts the claim at `CAM_FMS = 0` (and at source fps `0`). -/
theorem zero_fps_divides_inside_loop :
    configFps 0 30 = 0 ∧
    strideOfFps 30 (configFps 0 30) = none ∧
    (∀ (srcW srcH : ℚ) (st : LoopState) (f : Frame) (rows : List Row),
      loopStep 30 (configFps 0 30) srcW srcH st f rows = none) ∧
    configFps 10 0 = 0 ∧
    strideOfFps 0 (configFps 10 0) = none ∧
    (∀ (srcW srcH : ℚ) (st : LoopState) (f : Frame) (rows : List Row),
      loopStep 0 (configFps 10 0) srcW srcH st f rows = none) := by
  have hc1 : configFps 0 30 = 0 := by norm_num [configFps]
  have hc2 : configFps 10 0 = 0 := by norm_num [configFps]
  have hs1 : strideOfFps 30 (0 : ℚ) = none := by norm_num [strideOfFps]
  have hs2 : strideOfFps 0 (0 : ℚ) = none := by norm_num [strideOfFps]
  rw [hc1, hc2]
  refine ⟨rfl, hs1, ?_, rfl, hs2, ?_⟩
  · intro srcW srcH st f rows
    unfold loopStep
    rw [hs1]
  · intro srcW srcH st f rows
    unfold loopStep
    rw [hs2]

/-- C2: With a 30 fps source and a 10 fps target the stride is 3;
counting read frames from 1, exactly the multiples of 3 are scored
(callback and rendering), the others are displayed unmodified; the
`current_frame` counter starts at 0, increments once per read frame and
never resets. -/
theorem stride_three_sampling :
    strideOfFps 30 10 = some 3 ∧
    (∀ cf : ℕ, isScored 30 10 cf = some (decide (cf % 3 = 0))) ∧
    (∀ (srcW srcH : ℚ) (st : LoopState) (f : Frame) (rows : List Row),
      ((st.currentFrame + 1) % 3 ≠ 0 →
        loopStep 30 10 srcW srcH st f rows =
          some (⟨st.currentFrame + 1⟩, f, [Event.imshow videoWindow f.bufId])) ∧
      ((st.currentFrame + 1) % 3 = 0 →
        loopStep 30 10 srcW srcH st f rows =
          some (⟨st.currentFrame + 1⟩, (plot_boxes rows f).1,
            Event.callbackCall (rows.map (pixelRegion f)) srcW srcH ::
              (plot_boxes rows f).2))) ∧
    (∀ (srcW srcH : ℚ) (st : LoopState) (frames : List (Frame × List Row))
        (out : LoopState × List Event),
        runLoop 30 10 srcW srcH st frames = some out →
        out.1.currentFrame = st.currentFrame + frames.length) := by
  refine ⟨strideOfFps_30_10, isScored_30_10, ?_, ?_⟩
  · intro srcW srcH st f rows
    constructor
    · intro hm
      exact loopStep_unscored 30 10 srcW srcH st f rows 3 strideOfFps_30_10
        (by norm_num) (by omega)
    · intro hm
      exact loopStep_scored 30 10 srcW srcH st f rows 3 strideOfFps_30_10
        (by norm_num) (by omega)
  · intro srcW srcH st frames out h
    exact runLoop_counter 30 10 srcW srcH frames st out h

/-- Witness for C2: frame 6 is scored, frame 1 is display-only, and an
empty run leaves the counter unchanged. -/
theorem stride_three_sampling_witness :
    isScored 30 10 6 = some true ∧
    loopStep 30 10 640 480 ⟨0⟩ ⟨7, 64, 48, []⟩ [] =
      some (⟨1⟩, ⟨7, 64, 48, []⟩, [Event.imshow videoWindow 7]) ∧
    ((⟨5⟩, ([] : List Event)) : LoopState × List Event).1.currentFrame =
      (⟨5⟩ : LoopState).currentFrame + ([] : List (Frame × List Row)).length :=
  ⟨(stride_three_sampling.2.1 6).trans (by decide),
   (stride_three_sampling.2.2.1 640 480 ⟨0⟩ ⟨7, 64, 48, []⟩ []).1 (by decide),
   stride_three_sampling.2.2.2 640 480 ⟨5⟩ [] (⟨5⟩, []) rfl⟩

/-- C5: Whenever the configured target frame rate exceeds a positive
source frame rate, the target is clamped to the source rate, the stride
is 1, and every read frame is scored. -/
theorem clamp_gives_stride_one (src tgt : ℚ) (h0 : 0 < src) (hlt : src < tgt) :
    configFps tgt src = src ∧
    strideOfFps src (configFps tgt src) = some 1 ∧
    (∀ cf : ℕ, isScored src (configFps tgt src) cf = some true) := by
  have hc : configFps tgt src = src := if_pos hlt
  have hs : strideOfFps src src = some 1 := by
    unfold strideOfFps
    rw [if_neg h0.ne', div_self h0.ne']
    norm_num
  refine ⟨hc, by rw [hc]; exact hs, ?_⟩
  intro cf
  unfold isScored
  rw [hc, hs]
  norm_num

/-- Witness for C5: a 30 fps source with a 60 fps target gives stride 1
and every frame (here frame 7) scored. -/
theorem clamp_gives_stride_one_witness :
    configFps 60 30 = 30 ∧
    strideOfFps 30 (configFps 60 30) = some 1 ∧
    isScored 30 (configFps 60 30) 7 = some true := by
  obtain ⟨h1, h2, h3⟩ := clamp_gives_stride_one 30 60 (by norm_num) (by norm_num)
  exact ⟨h1, h2, h3 7⟩

/-- C3 counterexample: The code converts with Python `int()`
(truncation), not `round`: at normalized coordinate 1/2 and width 3 the
code yields pixel 1 while the spec's rounding formula yields 2. -/
theorem pixel_conversion_not_round :
    pixelCoord (1/2) 3 = 1 ∧ pixelCoordSpec (1/2) 3 = 2 ∧
    pixelCoord (1/2) 3 ≠ pixelCoordSpec (1/2) 3 := by
  have h1 : pixelCoord (1/2) 3 = 1 := by
    unfold pixelCoord pyInt
    rw [if_pos (by norm_num : (0:ℚ) ≤ 1/2 * (3:ℕ))]
    norm_num
  have h2 : pixelCoordSpec (1/2) 3 = 2 := by
    unfold pixelCoordSpec
    rw [round_eq]
    norm_num
  refine ⟨h1, h2, ?_⟩
  rw [h1, h2]
  norm_num

/-- C3 amended: The conversion is truncation
(`x1_px = int(x1_norm * width)`, a floor on the nonnegative normalized
coordinates), and the round trip through this conversion at fixed frame
dimensions is exact: re-normalizing the pixel value and converting again
gives the same pixel value, with no drift. -/
theorem pixel_truncation_roundtrip (q : ℚ) (w : ℕ) (h0 : 0 ≤ q) (hw : 0 < w) :
    pixelCoord q w = ⌊q * (w : ℚ)⌋ ∧
    0 ≤ pixelCoord q w ∧
    pixelCoord ((pixelCoord q w : ℚ) / (w : ℚ)) w = pixelCoord q w := by
  have hq : (0:ℚ) ≤ q * (w : ℚ) := mul_nonneg h0 (Nat.cast_nonneg w)
  have h1 : pixelCoord q w = ⌊q * (w : ℚ)⌋ := by
    unfold pixelCoord pyInt
    rw [if_pos hq]
  have hp : (0:ℤ) ≤ ⌊q * (w : ℚ)⌋ := Int.floor_nonneg.mpr hq
  have hwne : ((w : ℚ)) ≠ 0 := (Nat.cast_pos.mpr hw).ne'
  refine ⟨h1, h1 ▸ hp, ?_⟩
  rw [h1]
  unfold pixelCoord pyInt
  rw [div_mul_cancel₀ _ hwne]
  rw [if_pos (by exact_mod_cast hp)]
  exact Int.floor_intCast _

/-- Witness for the C3 round trip at coordinate 1/2 and width 3. -/
theorem pixel_truncation_roundtrip_witness :
    pixelCoord ((pixelCoord (1/2) 3 : ℚ) / ((3:ℕ) : ℚ)) 3 = pixelCoord (1/2) 3 :=
  (pixel_truncation_roundtrip (1/2) 3 (by norm_num) (by norm_num)).2.2

/-- C4 counterexample: For a scored frame with an empty detection
batch the renderer draws no text at all — the `putText` sits inside the
per-detection loop — so the claimed single "Total Targets: 0" label is
never rendered. -/
theorem empty_batch_has_no_label :
    (plot_boxes [] ⟨0, 640, 480, []⟩).2.countP isText = 0 ∧
    ¬ (plot_boxes [] ⟨0, 640, 480, []⟩).2.countP isText = 1 := by
  constructor
  · rfl
  · intro h
    simp [plot_boxes, boxEvents, isText] at h

/-- C4 amended: The renderer draws exactly `n` unfilled rectangles for
`n` detections, and — because the `putText` call is inside the
per-detection loop — `n` copies of the count label rather than a single
one, each reading the batch total; for an empty batch no label is drawn
at all. -/
theorem draw_counts (rows : List Row) (f : Frame) :
    (plot_boxes rows f).2.countP isRect = rows.length ∧
    (plot_boxes rows f).2.countP isText = rows.length ∧
    (∀ e ∈ (plot_boxes rows f).2, isText e = true →
      e = Event.drawText f.bufId ("Total Targets: " ++ toString rows.length)
            30 30 (0, 255, 0) 2) := by
  refine ⟨?_, ?_, ?_⟩
  · show ((boxEvents rows f) ++ [Event.imshow videoWindow f.bufId]).countP isRect = rows.length
    rw [List.countP_append, boxEvents_countP_rect]
    simp [List.countP_cons, isRect]
  · show ((boxEvents rows f) ++ [Event.imshow videoWindow f.bufId]).countP isText = rows.length
    rw [List.countP_append, boxEvents_countP_text]
    simp [List.countP_cons, isText]
  · intro e he hT
    have he' : e ∈ boxEvents rows f ++ [Event.imshow videoWindow f.bufId] := he
    rw [List.mem_append] at he'
    rcases he' with he' | he'
    · unfold boxEvents at he'
      rw [List.mem_flatten] at he'
      obtain ⟨l, hl, hel⟩ := he'
      rw [List.mem_map] at hl
      obtain ⟨row, hrow, rfl⟩ := hl
      rcases hel with _ | ⟨_, hel⟩
      · simp [isText] at hT
      · rcases hel with _ | ⟨_, hel⟩
        · rfl
        · cases hel
    · rw [List.mem_singleton] at he'
      subst he'
      simp [isText] at hT

/-- Witness for the C4 counts at a one-detection batch. -/
theorem draw_counts_witness :
    (plot_boxes [⟨0, 0, 1, 1, 1⟩] ⟨0, 2, 2, []⟩).2.countP isRect = 1 ∧
    (plot_boxes [⟨0, 0, 1, 1, 1⟩] ⟨0, 2, 2, []⟩).2.countP isText = 1 ∧
    Event.drawText 0 ("Total Targets: " ++ toString (1:ℕ)) 30 30 (0, 255, 0) 2 =
      Event.drawText 0 ("Total Targets: " ++
        toString (List.length [(⟨0, 0, 1, 1, 1⟩ : Row)])) 30 30 (0, 255, 0) 2 := by
  obtain ⟨h1, h2, h3⟩ := draw_counts [⟨0, 0, 1, 1, 1⟩] ⟨0, 2, 2, []⟩
  refine ⟨h1, h2, ?_⟩
  refine h3 _ ?_ rfl
  exact List.mem_append_left _ (List.mem_cons_of_mem _ (List.mem_cons_self _ _))

/-- C6: For every scored frame — including one whose detection batch
is empty — the external callback is invoked exactly once, with the
(possibly empty) list of all pixel regions extracted from that frame's
batch. -/
theorem callback_once_per_scored_frame (frameRate fps srcW srcH : ℚ)
    (st : LoopState) (f : Frame) (rows : List Row) (st' : LoopState)
    (f' : Frame) (evs : List Event)
    (h : loopStep frameRate fps srcW srcH st f rows = some (st', f', evs))
    (hm : isScored frameRate fps (st.currentFrame + 1) = some true) :
    evs.countP isCallback = 1 ∧
    Event.callbackCall (rows.map (pixelRegion f)) srcW srcH ∈ evs := by
  obtain ⟨stride, hs, hz, hmod⟩ := isScored_true_elim _ _ _ hm
  rw [loopStep_scored frameRate fps srcW srcH st f rows stride hs hz hmod] at h
  simp only [Option.some.injEq, Prod.mk.injEq] at h
  obtain ⟨-, -, hevs⟩ := h
  subst hevs
  constructor
  · rw [List.countP_cons, plot_boxes_snd, List.countP_append,
      boxEvents_countP_callback]
    simp [isCallback, List.countP_cons]
  · exact List.mem_cons_self _ _

/-- Witness for C6: a scored frame (frame 3 at stride 3) with an empty
detection batch still fires the callback once, with an empty region
list. -/
theorem callback_once_witness :
    (Event.callbackCall (List.map (pixelRegion ⟨9, 64, 48, []⟩) []) 640 480 ::
      (plot_boxes [] ⟨9, 64, 48, []⟩).2).countP isCallback = 1 ∧
    Event.callbackCall (List.map (pixelRegion ⟨9, 64, 48, []⟩) []) 640 480 ∈
      (Event.callbackCall (List.map (pixelRegion ⟨9, 64, 48, []⟩) []) 640 480 ::
        (plot_boxes [] ⟨9, 64, 48, []⟩).2) := by
  have hstep := loopStep_scored 30 10 640 480 ⟨2⟩ ⟨9, 64, 48, []⟩ [] 3
    strideOfFps_30_10 (by norm_num) (by decide)
  exact callback_once_per_scored_frame 30 10 640 480 ⟨2⟩ ⟨9, 64, 48, []⟩ [] _ _ _
    hstep ((isScored_30_10 3).trans (by decide))

/-- C7: On every scored frame the external callback fires first —
before any rectangle, label or display — and its payload is the batch of
regions `(frame, x1, y1, x2-x1, y2-y1)` in pixel coordinates computed
from the current frame's dimensions, together with `srcW`/`srcH`, the
dimensions recorded from the video source at open time (lines 39-40),
which are passed through unchanged and need not equal the frame's own. -/
theorem callback_payload_before_render (frameRate fps srcW srcH : ℚ)
    (st : LoopState) (f : Frame) (rows : List Row) (st' : LoopState)
    (f' : Frame) (evs : List Event)
    (h : loopStep frameRate fps srcW srcH st f rows = some (st', f', evs))
    (hm : isScored frameRate fps (st.currentFrame + 1) = some true) :
    evs = Event.callbackCall (rows.map fun row =>
        ⟨f.bufId, pixelCoord row.x1 f.width, pixelCoord row.y1 f.height,
         pixelCoord row.x2 f.width - pixelCoord row.x1 f.width,
         pixelCoord row.y2 f.height - pixelCoord row.y1 f.height⟩) srcW srcH ::
      (boxEvents rows f ++ [Event.imshow videoWindow f.bufId]) := by
  obtain ⟨stride, hs, hz, hmod⟩ := isScored_true_elim _ _ _ hm
  rw [loopStep_scored frameRate fps srcW srcH st f rows stride hs hz hmod] at h
  simp only [Option.some.injEq, Prod.mk.injEq] at h
  obtain ⟨-, -, hevs⟩ := h
  rw [← hevs]
  rfl

/-- Witness for C7: the scored-frame trace at frame 3, stride 3, with an
empty batch — the callback event leads the trace. -/
theorem callback_payload_witness :
    Event.callbackCall (List.map (pixelRegion ⟨9, 64, 48, []⟩) []) 640 480 ::
        (plot_boxes [] ⟨9, 64, 48, []⟩).2 =
      Event.callbackCall (List.map (fun row =>
          ⟨(9:ℕ), pixelCoord row.x1 64, pixelCoord row.y1 48,
           pixelCoord row.x2 64 - pixelCoord row.x1 64,
           pixelCoord row.y2 48 - pixelCoord row.y1 48⟩) ([] : List Row)) 640 480 ::
        (boxEvents [] ⟨9, 64, 48, []⟩ ++ [Event.imshow videoWindow 9]) := by
  have hstep := loopStep_scored 30 10 640 480 ⟨2⟩ ⟨9, 64, 48, []⟩ [] 3
    strideOfFps_30_10 (by norm_num) (by decide)
  exact callback_payload_before_render 30 10 640 480 ⟨2⟩ ⟨9, 64, 48, []⟩ [] _ _ _
    hstep ((isScored_30_10 3).trans (by decide))

/-- C9: `plot_boxes` mutates the frame it is given in place and
returns that very buffer: the returned frame keeps the input's buffer
identity and dimensions, and its overlay list is the input's with
exactly the new drawing operations appended — no copy is made. -/
theorem plot_boxes_returns_same_buffer (rows : List Row) (f : Frame) :
    (plot_boxes rows f).1.bufId = f.bufId ∧
    (plot_boxes rows f).1.width = f.width ∧
    (plot_boxes rows f).1.height = f.height ∧
    (plot_boxes rows f).1.ops = f.ops ++ (boxEvents rows f).map opLabel :=
  ⟨rfl, rfl, rfl, rfl⟩

/-- C10: Every successfully read frame is shown in the `video` window
exactly once per iteration, and the display is the iteration's final
event: an unscored frame is shown directly and unmodified; a scored
frame is shown by the renderer after all rectangles and labels are
drawn. -/
theorem frame_displayed_exactly_once (frameRate fps srcW srcH : ℚ)
    (st : LoopState) (f : Frame) (rows : List Row) (st' : LoopState)
    (f' : Frame) (evs : List Event)
    (h : loopStep frameRate fps srcW srcH st f rows = some (st', f', evs)) :
    evs.countP isShow = 1 ∧
    evs.getLast? = some (Event.imshow videoWindow f.bufId) ∧
    (isScored frameRate fps (st.currentFrame + 1) = some false →
      evs = [Event.imshow videoWindow f.bufId] ∧ f' = f) := by
  unfold loopStep at h
  cases hs : strideOfFps frameRate fps with
  | none =>
      rw [hs] at h
      exact absurd h (by simp)
  | some stride =>
      rw [hs] at h
      dsimp only at h
      by_cases hz : stride = 0
      · rw [if_pos hz] at h
        exact absurd h (by simp)
      · rw [if_neg hz] at h
        by_cases hmod : ((st.currentFrame + 1 : ℕ) : ℤ) % stride ≠ 0
        · rw [if_pos hmod] at h
          simp only [Option.some.injEq, Prod.mk.injEq] at h
          obtain ⟨-, hf, hevs⟩ := h
          subst hevs
          subst hf
          exact ⟨by simp [isShow], rfl, fun _ => ⟨rfl, rfl⟩⟩
        · rw [if_neg hmod] at h
          push_neg at hmod
          simp only [Option.some.injEq, Prod.mk.injEq] at h
          obtain ⟨-, -, hevs⟩ := h
          subst hevs
          refine ⟨?_, ?_, ?_⟩
          · rw [List.countP_cons, plot_boxes_snd, List.countP_append,
              boxEvents_countP_show]
            simp [isShow, isCallback, List.countP_cons]
          · rw [plot_boxes_snd, ← List.cons_append]
            exact List.getLast?_concat _
          · intro hfalse
            exact absurd hmod (isScored_false_elim frameRate fps _ stride hs hz hfalse)

/-- Witness for C10: an unscored frame (frame 1 at stride 3) is displayed
exactly once, as the final event. -/
theorem frame_displayed_once_witness :
    ([Event.imshow videoWindow 7] : List Event).countP isShow = 1 ∧
    ([Event.imshow videoWindow 7] : List Event).getLast? =
      some (Event.imshow videoWindow 7) := by
  have hstep := loopStep_unscored 30 10 640 480 ⟨0⟩ ⟨7, 64, 48, []⟩ [] 3
    strideOfFps_30_10 (by norm_num) (by decide)
  have h := frame_displayed_exactly_once 30 10 640 480 ⟨0⟩ ⟨7, 64, 48, []⟩ []
    _ _ _ hstep
  exact ⟨h.1, h.2.1⟩

/-- C8 counterexample: A file that cannot be opened does not raise
`IOError`: the run fails at `assert player.isOpened()` with
`AssertionError`. -/
theorem open_failure_not_ioerror :
    openPlayer ⟨false, 0, 0, 0⟩ = Except.error PyError.assertionError ∧
    openPlayer ⟨false, 0, 0, 0⟩ ≠ Except.error PyError.ioError := by
  refine ⟨rfl, ?_⟩
  intro h
  rw [show openPlayer ⟨false, 0, 0, 0⟩ = Except.error PyError.assertionError
    from rfl] at h
  exact PyError.noConfusion (Except.error.inj h)

/-- C8 amended: Opening the source never fails inside
`get_video_from_file` — even an unopenable file yields a handle plus the
reported dimensions — and a file that cannot be opened aborts at the
`assert player.isOpened()` in `__call__` with `AssertionError`, not
`IOError`; on success the reported width, height and frame rate are
provided. -/
theorem open_video_behavior (src : VideoSource) :
    get_video_from_file src = Except.ok (src, src.width, src.height) ∧
    (src.opened = false → openPlayer src = Except.error PyError.assertionError) ∧
    (src.opened = true → openPlayer src = Except.ok (src.width, src.height, src.fps)) := by
  refine ⟨rfl, ?_, ?_⟩
  · intro hop
    unfold openPlayer
    dsimp only [get_video_from_file]
    rw [hop]
    simp
  · intro hop
    unfold openPlayer
    dsimp only [get_video_from_file]
    rw [hop]
    simp

/-- Witness for C8: an opened and an unopened source. -/
theorem open_video_behavior_witness :
    openPlayer ⟨true, 640, 480, 30⟩ = Except.ok (640, 480, 30) ∧
    openPlayer ⟨false, 640, 480, 30⟩ = Except.error PyError.assertionError :=
  ⟨(open_video_behavior ⟨true, 640, 480, 30⟩).2.2 rfl,
   (open_video_behavior ⟨false, 640, 480, 30⟩).2.1 rfl⟩

end EyeOfRetail
